import Mathlib

/-
Verification of the gateway shard core (`hikari/net/gateway.py`) against its
specification. The definitions below are a shallow embedding of the source:
`GatewayConnection.__init__`, `_receive_json`, `_process_events`, `run`,
`close`, `_keep_alive`, `_resume`, `_identify` and `_send_json_now`.
-/

namespace Gateway

/-! ## Opcode and rate-limit constants (class attributes of `GatewayConnection`) -/

def DISPATCH_OP : Int := 0

def HEARTBEAT_OP : Int := 1

def IDENTIFY_OP : Int := 2

def STATUS_UPDATE_OP : Int := 3

def VOICE_STATE_UPDATE_OP : Int := 4

def RESUME_OP : Int := 6

def RECONNECT_OP : Int := 7

def REQUEST_GUILD_MEMBERS_OP : Int := 8

def INVALID_SESSION_OP : Int := 9

def HELLO_OP : Int := 10

def HEARTBEAT_ACK_OP : Int := 11

def REDACTED : String := "redacted"

def RATELIMIT_TOLERANCE : Nat := 119

def RATELIMIT_COOLDOWN : ℚ := 60

/-! ## JSON values (payloads are dynamically typed JSON in the source) -/

/-- A JSON value; objects are association lists of fields. -/
inductive Json where
  | null
  | bool (b : Bool)
  | num (n : Int)
  | str (s : String)
  | arr (elems : List Json)
  | obj (fields : List (String × Json))

/-- Field lookup on a JSON object, `payload["key"]`-style; `none` when the value
is not an object or the key is absent. -/
def Json.get : Json → String → Option Json
  | .obj fields, k =>
    match fields.find? (fun f => f.1 = k) with
    | some f => some f.2
    | none => none
  | _, _ => none

/-! ## Wire envelope and session state -/

/-- The decoded envelope as `_process_events` reads it: `message["op"]`,
`message["d"]`, `message.get("s", None)`, `message.get("t", None)`. -/
structure Message where
  op : Int
  d : Json
  s : Option Int
  t : Option String

/-- The session fields of `GatewayConnection`: `self._seq`, `self._session_id`,
`self.trace` (the source assigns `None` to `trace` on reidentify, so it is
optional here even though `__init__` sets it to a list). -/
structure SessionState where
  seq : Option Int
  session_id : Option String
  trace : Option (List String)
deriving DecidableEq

/-- The `if seq is not None: self._seq = seq` step of `_process_events`. -/
def updateSeq (st : SessionState) (s : Option Int) : SessionState :=
  match s with
  | some n => { st with seq := some n }
  | none => st

/-- Observable actions of one `_process_events` iteration. -/
inductive Effect where
  | dispatchCall (t : Option String) (d : Json)
  | sendAck
  | ackRecorded
  | warnUnknownOp (op : Int)
  | wsClose (code : Int) (reason : String)

/-- How one `_process_events` iteration ends: continue looping, raise
`GatewayRequestedReconnection` (via `_force_reidentify`), or let an exception
from the dispatch sink escape (the source has no try/except around
`self.dispatch(t, d)`). -/
inductive ProcOutcome where
  | next
  | reidentify (code : Int) (reason : String)
  | sinkRaised (e : String)

structure ProcResult where
  state : SessionState
  effects : List Effect
  outcome : ProcOutcome

/-- One iteration of the `while True` loop in `_process_events`, for an
already-decoded message. The sink is modelled as a function that either
returns or raises. The sequence is updated before the opcode branch. -/
def processOne (sink : Option String → Json → Except String Unit)
    (st : SessionState) (m : Message) : ProcResult :=
  let st := updateSeq st m.s
  if m.op = DISPATCH_OP then
    match sink m.t m.d with
    | .ok _ => ⟨st, [.dispatchCall m.t m.d], .next⟩
    | .error e => ⟨st, [.dispatchCall m.t m.d], .sinkRaised e⟩
  else if m.op = HEARTBEAT_OP then ⟨st, [.sendAck], .next⟩
  else if m.op = RECONNECT_OP then
    ⟨st, [.wsClose 1003 "Reconnect opcode was received"],
      .reidentify 1003 "Reconnect opcode was received"⟩
  else if m.op = INVALID_SESSION_OP then
    ⟨st, [.wsClose 1003 "Session ID invalid"], .reidentify 1003 "Session ID invalid"⟩
  else if m.op = HEARTBEAT_ACK_OP then ⟨st, [.ackRecorded], .next⟩
  else ⟨st, [.warnUnknownOp m.op], .next⟩

/-- `_process_events` over a finite list of decoded messages: folds
`processOne`, stopping when an iteration does not continue. An exhausted list
means the loop is still awaiting the next frame. -/
def processEvents (sink : Option String → Json → Except String Unit)
    (st : SessionState) : List Message → ProcResult
  | [] => ⟨st, [], .next⟩
  | m :: ms =>
    let r := processOne sink st m
    match r.outcome with
    | .next =>
      let r2 := processEvents sink r.state ms
      ⟨r2.state, r.effects ++ r2.effects, r2.outcome⟩
    | out => ⟨r.state, r.effects, out⟩

/-! ## Shard configuration and the resume-vs-identify branch of `run` -/

/-- The constructor arguments of `GatewayConnection` relevant to IDENTIFY and
RESUME. The `platform_system`, `lib_ver` and `py_ver` fields stand for the
runtime strings `platform.system()`, `_lib_ver()` and `_py_ver()`. -/
structure Config where
  token : String
  shard_id : Option Int
  shard_count : Option Int
  incognito : Bool
  large_threshold : Int
  initial_presence : Option Json

structure IdentifyProperties where
  os : String
  browser : String
  device : String
deriving DecidableEq

/-- The `d` payload built by `_identify`. -/
structure IdentifyPayload where
  token : String
  compress : Bool
  large_threshold : Int
  properties : IdentifyProperties
  status : Option Json
  shard : Option (Int × Int)

/-- `_identify`: `compress` is hard-coded `False`; properties are redacted when
incognito; `status` present iff an initial presence was configured; `shard`
present iff both shard id and count are set. -/
def identifyPayload (cfg : Config) (platform_system lib_ver py_ver : String) :
    IdentifyPayload :=
  { token := cfg.token
    compress := false
    large_threshold := cfg.large_threshold
    properties :=
      { os := if cfg.incognito then REDACTED else platform_system
        browser := if cfg.incognito then REDACTED else lib_ver
        device := if cfg.incognito then REDACTED else py_ver }
    status := cfg.initial_presence
    shard :=
      match cfg.shard_id, cfg.shard_count with
      | some i, some c => some (i, c)
      | _, _ => none }

/-- The `d` payload built by `_resume`: `{token, session_id, seq}`. -/
structure ResumePayload where
  token : String
  session_id : Option String
  seq : Option Int
deriving DecidableEq

/-- The frame sent right after HELLO. -/
inductive AuthFrame where
  | identifyFrame (p : IdentifyPayload)
  | resumeFrame (p : ResumePayload)

/-- The branch in `run`:
`is_resume = self._seq is None and self._session_id is None` followed by
`await (self._identify() if is_resume else self._resume())`. -/
def authAfterHello (cfg : Config) (platform_system lib_ver py_ver : String)
    (st : SessionState) : AuthFrame :=
  let is_resume := st.seq.isNone && st.session_id.isNone
  if is_resume then .identifyFrame (identifyPayload cfg platform_system lib_ver py_ver)
  else .resumeFrame { token := cfg.token, session_id := st.session_id, seq := st.seq }

/-! ## Connection state, the outer loop of `run`, and `close` -/

/-- The mutable object state of `GatewayConnection` that the outer loop touches:
session fields, the decoder fields (`self.inflator` is tracked by a generation
number that increases exactly where `zlib.decompressobj()` is called, and
`self.in_buffer` by its contents), the `_closed_event` flag and the websocket
handle (`none` before the first `websockets.connect`). -/
structure ConnState where
  session : SessionState
  inflatorGen : Nat
  in_buffer : List Nat
  closed_event : Bool
  ws : Option Nat
deriving DecidableEq

/-- The state built by `__init__`: `_seq = None`, `_session_id = None`,
`trace = []`, one inflate context created here (generation 0), empty buffer,
event unset, `ws = None`. -/
def initState : ConnState :=
  { session := { seq := none, session_id := none, trace := some [] }
    inflatorGen := 0
    in_buffer := []
    closed_event := false
    ws := none }

/-- How one connection iteration of `run` terminates. -/
inductive Termination where
  | resumable (code : Int) (reason : String)
  | reconnection (code : Int) (reason : String)
  | transportClosed (code : Int)
  | sinkRaised (e : String)
deriving DecidableEq

/-- The `except (GatewayRequestedReconnection, ResumableConnectionClosed)`
clause of `run`: only those two typed terminations are caught; on
`GatewayRequestedReconnection` the handler runs
`self._seq, self._session_id, self.trace = None, None, None`. Any other
termination (a plain `websockets.ConnectionClosed`, or an exception escaping
the dispatch sink) propagates out of `run`. Neither `self.inflator` nor
`self.in_buffer` is ever touched by `run`. -/
def runStep (st : ConnState) (t : Termination) : Except Termination ConnState :=
  match t with
  | .resumable _ _ => .ok st
  | .reconnection _ _ =>
    .ok { st with session := { seq := none, session_id := none, trace := none } }
  | t => .error t

/-- The `while True` loop of `run` over a script of iteration terminations:
`.ok` is the state at the start of the next iteration after the script,
`.error` is the exception that escaped `run`. -/
def runScript (st : ConnState) : List Termination → Except Termination ConnState
  | [] => .ok st
  | t :: ts =>
    match runStep st t with
    | .ok st1 => runScript st1 ts
    | .error e => .error e

inductive CloseOutcome where
  | returned
  | attributeError
deriving DecidableEq

/-- `close(block)`: sets `self._closed_event`; when `block`, awaits
`self.ws.wait_closed()`, which raises `AttributeError` when `self.ws` is still
`None`. -/
def close (st : ConnState) (block : Bool) : ConnState × CloseOutcome :=
  let st1 := { st with closed_event := true }
  if block then
    match st1.ws with
    | none => (st1, .attributeError)
    | some _ => (st1, .returned)
  else (st1, .returned)

/-! ## Decoder pipeline (`_receive_json`, binary branch) -/

/-- The zlib sync-flush sentinel bytes checked by
`self.in_buffer.endswith(b"\x00\x00\xff\xff")`. -/
def sentinelBytes : List Nat := [0x00, 0x00, 0xff, 0xff]

def endsWithSentinel (buf : List Nat) : Bool := sentinelBytes.isSuffixOf buf

/-- The accumulation loop of the binary branch of `_receive_json`: each received
frame is appended to `in_buffer`; the loop keeps receiving while the buffer
does not end with the sentinel. Returns the buffer handed to the inflate
context and the unconsumed frames, or `none` when the frame list runs out
before a sentinel (the source would still be awaiting `self.ws.recv()`). -/
def accumulate (buf : List Nat) : List (List Nat) → Option (List Nat × List (List Nat))
  | [] => none
  | f :: rest =>
    let buf2 := buf ++ f
    if endsWithSentinel buf2 then some (buf2, rest) else accumulate buf2 rest

structure RecvBinResult where
  inflated : List (List Nat)
  buffer_after : List Nat
  rest : List (List Nat)

/-- The binary branch of `_receive_json` on a sequence of binary frames:
accumulate until the sentinel, call `self.inflator.decompress` exactly once on
the whole buffer, then empty the buffer (the source either reallocates it or
clears it in place; both leave it empty). `inflated` lists the buffers fed to
the inflate context. -/
def receiveJsonBin (buf : List Nat) (frames : List (List Nat)) :
    Option RecvBinResult :=
  match accumulate buf frames with
  | none => none
  | some (full, rest) => some ⟨[full], [], rest⟩

/-! ## Heartbeat supervisor (`_keep_alive`) -/

/-- The warning condition in `_keep_alive`'s TimeoutError branch:
`time_taken > 0.15 * self.heartbeat_latency`. Note that the operand is the
measured heartbeat latency, while the emitted warning text speaks of 15% of
the heartbeat interval. -/
def keepAliveWarnCond (time_taken heartbeat_latency : ℚ) : Bool :=
  decide (time_taken > 15 / 100 * heartbeat_latency)

/-- Modelled from the spec: section 4.4 step 2 asks for a warning when the send
took more than 15% of `heartbeat_interval`. Stated only for comparison with
`keepAliveWarnCond`, which is what the source computes. -/
def specWarnCond (time_taken heartbeat_interval : ℚ) : Bool :=
  decide (time_taken > 15 / 100 * heartbeat_interval)

inductive HbAction where
  | zombieResume (code : Int)
  | shutdownClose (code : Int) (reason : String)
  | heartbeatSent (seq : Option Int)
deriving DecidableEq

/-- One iteration of the `while True` loop of `_keep_alive`, with the elapsed
wait time as second component. `ackLate` is the zombie test
`self._last_ack_received < self._last_heartbeat_sent - self._heartbeat_interval`,
checked first; then `asyncio.wait_for(self._closed_event.wait(), timeout=interval)`
returns as soon as the event is set (`signalDelay` is the time until it is set,
`none` when it is not set during this wait), leading to
`self.ws.close(code=1000, reason="User requested shutdown")`; on timeout the
`TimeoutError` branch sends a HEARTBEAT carrying `self._seq`. -/
def keepAliveIter (interval : ℚ) (ackLate : Bool) (signalDelay : Option ℚ)
    (seq : Option Int) : HbAction × ℚ :=
  if ackLate then (.zombieResume 1008, 0)
  else
    match signalDelay with
    | some d =>
      if d ≤ interval then (.shutdownClose 1000 "User requested shutdown", d)
      else (.heartbeatSent seq, interval)
    | none => (.heartbeatSent seq, interval)

/-! ## Send gate (`_send_json_now` with `BoundedSemaphore(RATELIMIT_TOLERANCE)`) -/

/-- A write performed at time `t` holds its semaphore permit at least through
`[t, t + RATELIMIT_COOLDOWN)`: `_send_json_now` acquires the permit before
`self.ws.send` and sleeps `RATELIMIT_COOLDOWN` seconds after the send before
the `async with` block releases it. -/
def permitHeldAt (t now : ℚ) : Bool :=
  decide (t ≤ now ∧ now < t + RATELIMIT_COOLDOWN)

/-- Number of writes (given by their send timestamps) whose permit is held at
instant `now`. -/
def heldCount (writes : List ℚ) (now : ℚ) : Nat :=
  (writes.filter (fun t => permitHeldAt t now)).length

def inWindow (T t : ℚ) : Bool := decide (T ≤ t ∧ t < T + RATELIMIT_COOLDOWN)

/-- Number of writes falling in the rolling window `[T, T + RATELIMIT_COOLDOWN)`. -/
def windowCount (writes : List ℚ) (T : ℚ) : Nat :=
  (writes.filter (inWindow T)).length

/-! ## Concrete sample values used in the theorems -/

/-- The happy-path READY payload `{session_id: "abc"}`. -/
def readyPayload : Json := .obj [("session_id", .str "abc")]

/-- The happy-path READY frame `{op:0, t:"READY", s:1, d:{session_id:"abc"}}`. -/
def readyMsg : Message := { op := 0, d := readyPayload, s := some 1, t := some "READY" }

/-- A DISPATCH frame carrying sequence `n`. -/
def seqMsg (n : Int) : Message := { op := 0, d := .null, s := some n, t := some "E" }

/-- A dispatch sink that returns normally. -/
def okSink : Option String → Json → Except String Unit := fun _ _ => .ok ()

/-- A dispatch sink that raises. -/
def boomSink : Option String → Json → Except String Unit := fun _ _ => .error "boom"

/-- A sample shard configuration. -/
def sampleCfg : Config :=
  { token := "T"
    shard_id := none
    shard_count := none
    incognito := false
    large_threshold := 50
    initial_presence := none }

/-! ## Theorems for the claims -/

/-- C1: the code does not record the session id from READY. Processing the
happy-path frame `{op:0, t:"READY", s:1, d:{session_id:"abc"}}` from the
initial state leaves `session_id = none` — not the payload's `"abc"` — while
`seq` becomes 1 and the sink is called with `("READY", {session_id:"abc"})`:
`_process_events` never assigns `self._session_id`. -/
theorem C1_ready_does_not_record_session_id :
    (processOne okSink initState.session readyMsg).state.seq = some 1 ∧
    (processOne okSink initState.session readyMsg).state.session_id = none ∧
    readyMsg.d.get "session_id" = some (Json.str "abc") ∧
    (processOne okSink initState.session readyMsg).effects =
      [Effect.dispatchCall (some "READY") readyPayload] :=
  ⟨rfl, rfl, rfl, rfl⟩

/-- C2: the resume-vs-identify branch of `run` is inverted. With mixed state
`seq = some 1, session_id = none` (so NOT both non-null) the code sends RESUME,
where the claim requires IDENTIFY; it sends IDENTIFY exactly when both fields
are null, and RESUME whenever at least one is non-null. -/
theorem C2_auth_branch_inverted :
    authAfterHello sampleCfg "Linux" "hikari v0" "CPython"
        { seq := some 1, session_id := none, trace := some [] } =
      .resumeFrame { token := "T", session_id := none, seq := some 1 } ∧
    authAfterHello sampleCfg "Linux" "hikari v0" "CPython"
        { seq := none, session_id := none, trace := some [] } =
      .identifyFrame (identifyPayload sampleCfg "Linux" "hikari v0" "CPython") ∧
    authAfterHello sampleCfg "Linux" "hikari v0" "CPython"
        { seq := some 7, session_id := some "abc", trace := some [] } =
      .resumeFrame { token := "T", session_id := some "abc", seq := some 7 } :=
  ⟨rfl, rfl, rfl⟩

/-- C7: the warning in `_keep_alive` compares the send duration against 15% of
the measured heartbeat latency, not of the heartbeat interval. With latency
0.1s, interval 41.25s and a send of 0.05s, the code warns although 0.05s is
well under 15% of the interval. -/
theorem C7_warn_uses_latency_not_interval :
    keepAliveWarnCond (1 / 20) (1 / 10) = true ∧
    specWarnCond (1 / 20) (165 / 4) = false := by
  constructor <;> simp [keepAliveWarnCond, specWarnCond] <;> norm_num

/-- C10: on a freshly constructed connection (`run` has never opened a
transport, so `self.ws` is `None`), `close(block=True)` sets the shutdown event
and then fails with an attribute error awaiting `self.ws.wait_closed()`;
`close(block=False)` sets the event and returns without error. -/
theorem C10_close_before_run :
    close initState true = ({ initState with closed_event := true }, .attributeError) ∧
    close initState false = ({ initState with closed_event := true }, .returned) :=
  ⟨rfl, rfl⟩

/-- C3 counterexample: an exception from the dispatch sink is not caught. With
a raising sink, processing the READY frame ends the event loop with the sink's
exception (no try/except guards `self.dispatch(t, d)`), and `run`'s handler
does not catch it either, so it propagates out of the supervisor. -/
theorem C3_sink_error_escapes_loop :
    (processOne boomSink initState.session readyMsg).outcome = .sinkRaised "boom" ∧
    runStep initState (.sinkRaised "boom") = .error (.sinkRaised "boom") :=
  ⟨rfl, rfl⟩

/-- C4 counterexample: `run` exits without any shutdown request. A plain
transport closure (here with code 1006) is not one of the two typed
terminations caught by `run`'s handler, so the outer loop exits by propagating
it although `closed_event` was never set. -/
theorem C4_run_exits_without_shutdown :
    initState.closed_event = false ∧
    runScript initState [.transportClosed 1006] = .error (.transportClosed 1006) :=
  ⟨rfl, rfl⟩

/-- C8 counterexample: the stored sequence can decrease. After DISPATCH frames
carrying `s=5` and then `s=3`, the stored sequence is 3, smaller than the 5 it
held in between: `_process_events` overwrites `self._seq` unconditionally. -/
theorem C8_seq_can_decrease :
    (processOne okSink initState.session (seqMsg 5)).state.seq = some 5 ∧
    (processOne okSink (processOne okSink initState.session (seqMsg 5)).state
        (seqMsg 3)).state.seq = some 3 ∧
    (3 : Int) < 5 :=
  ⟨rfl, rfl, by norm_num⟩

/-- C9 counterexample: the decoder is not fresh at the start of a connection
iteration. With one stale byte accumulated when the connection drops with a
resumable termination, the next iteration of `run` starts with the very same
inflate context (generation unchanged since construction) and the stale byte
still buffered: neither `self.inflator` nor `self.in_buffer` is recreated by
`run`. -/
theorem C9_decoder_not_reset_on_reconnect :
    runScript { initState with in_buffer := [1] } [.resumable 1008 "zombie"] =
      .ok { initState with in_buffer := [1] } ∧
    ({ initState with in_buffer := [1] } : ConnState).in_buffer ≠ [] ∧
    ({ initState with in_buffer := [1] } : ConnState).inflatorGen = initState.inflatorGen :=
  ⟨rfl, by simp, rfl⟩

/-! ## Helper lemmas -/

/-- Every buffer the accumulation loop hands to the inflate context ends with
the sentinel. -/
theorem accumulate_ends_with_sentinel :
    ∀ (frames : List (List Nat)) (buf out : List Nat) (rest : List (List Nat)),
      accumulate buf frames = some (out, rest) → endsWithSentinel out = true := by
  intro frames
  induction frames with
  | nil => intro buf out rest h; simp [accumulate] at h
  | cons f fs ih =>
    intro buf out rest h
    rw [accumulate] at h
    cases hs : endsWithSentinel (buf ++ f) with
    | true =>
      simp only [hs, if_true, Option.some.injEq, Prod.mk.injEq] at h
      rw [← h.1]
      exact hs
    | false =>
      simp only [hs, Bool.false_eq_true, if_false] at h
      exact ih (buf ++ f) out rest h

/-- Filtering with a pointwise-weaker predicate keeps at least as many
elements. -/
theorem filter_length_mono {α : Type} (l : List α) (p q : α → Bool)
    (h : ∀ a ∈ l, p a = true → q a = true) :
    (l.filter p).length ≤ (l.filter q).length := by
  induction l with
  | nil => simp
  | cons a l ih =>
    have ih2 := ih fun a ha => h a (List.mem_cons_of_mem _ ha)
    cases hpa : p a with
    | true =>
      have hqa := h a (List.mem_cons_self _ _) hpa
      simp only [List.filter_cons, hpa, hqa, if_true, List.length_cons]
      exact Nat.succ_le_succ ih2
    | false =>
      cases hqa : q a with
      | true =>
        simp only [List.filter_cons, hpa, hqa, Bool.false_eq_true, if_false,
          if_true, List.length_cons]
        exact Nat.le_succ_of_le ih2
      | false =>
        simp only [List.filter_cons, hpa, hqa, Bool.false_eq_true, if_false]
        exact ih2

/-- A nonempty list of rationals has a maximal member. -/
theorem exists_max_mem (l : List ℚ) (hne : l ≠ []) : ∃ m ∈ l, ∀ x ∈ l, x ≤ m := by
  induction l with
  | nil => exact absurd rfl hne
  | cons a l ih =>
    cases l with
    | nil => exact ⟨a, by simp, by simp⟩
    | cons b t =>
      obtain ⟨m, hm, hmax⟩ := ih (by simp)
      refine ⟨max a m, ?_, ?_⟩
      · rcases max_choice a m with he | he
        · rw [he]; exact List.mem_cons_self _ _
        · rw [he]; exact List.mem_cons_of_mem _ hm
      · intro x hx
        rcases List.mem_cons.mp hx with rfl | hx1
        · exact le_max_left _ _
        · exact le_trans (hmax x hx1) (le_max_right _ _)

/-! ## Amended and confirmed theorems -/

/-- C3 amended: an exception raised by the dispatch sink is not caught by the
event loop: the loop ends with the sink's exception, the sequence update made
before the sink call is retained, and `run`'s handler (which catches only the
two typed terminations) lets it propagate out of the supervisor. -/
theorem C3_sink_error_propagates_uncaught
    (sink : Option String → Json → Except String Unit) (st : SessionState)
    (m : Message) (e : String) (hop : m.op = DISPATCH_OP)
    (hs : sink m.t m.d = .error e) :
    (processOne sink st m).outcome = .sinkRaised e ∧
    (processOne sink st m).state = updateSeq st m.s ∧
    runStep initState (.sinkRaised e) = .error (.sinkRaised e) := by
  refine ⟨?_, ?_, rfl⟩ <;> simp [processOne, hop, hs]

theorem C3_sink_error_propagates_uncaught_witness :
    (processOne boomSink initState.session readyMsg).outcome = .sinkRaised "boom" ∧
    (processOne boomSink initState.session readyMsg).state =
      updateSeq initState.session readyMsg.s ∧
    runStep initState (.sinkRaised "boom") = .error (.sinkRaised "boom") :=
  C3_sink_error_propagates_uncaught boomSink initState.session readyMsg "boom" rfl rfl

/-- C4 amended: when the shutdown signal arrives within the heartbeat wait (and
no zombie condition fired first), the `_keep_alive` iteration closes the
transport with code 1000 "User requested shutdown" after waiting at most one
heartbeat interval, and `close` always sets the signal; but `run` exits its
outer loop on ANY termination that is not one of the two typed ones — the plain
transport closure following the code-1000 close, and equally a transport fault
with shutdown never requested — so `run` does not exit only on explicit
shutdown. -/
theorem C4_shutdown_closes_1000_and_run_exits (interval d : ℚ) (seq : Option Int)
    (hd : d ≤ interval) :
    keepAliveIter interval false (some d) seq =
      (.shutdownClose 1000 "User requested shutdown", d) ∧
    (keepAliveIter interval false (some d) seq).2 ≤ interval ∧
    (∀ (st : ConnState) (b : Bool), (close st b).1.closed_event = true) ∧
    (∀ (st : ConnState) (c : Int),
      runScript st [.transportClosed c] = .error (.transportClosed c)) := by
  refine ⟨?_, ?_, ?_, fun st c => rfl⟩
  · simp [keepAliveIter, hd]
  · simp [keepAliveIter, hd]
  · intro st b
    cases b with
    | true =>
      show ((close st true).1).closed_event = true
      unfold close
      cases st.ws <;> rfl
    | false => rfl

theorem C4_shutdown_closes_1000_and_run_exits_witness :
    keepAliveIter 2 false (some 1) none =
      (.shutdownClose 1000 "User requested shutdown", 1) ∧
    (keepAliveIter 2 false (some 1) none).2 ≤ 2 ∧
    (close initState true).1.closed_event = true ∧
    runScript initState [.transportClosed 1000] = .error (.transportClosed 1000) := by
  have h := C4_shutdown_closes_1000_and_run_exits 2 1 none (by norm_num)
  exact ⟨h.1, h.2.1, h.2.2.1 initState true, h.2.2.2 initState 1000⟩

/-- C5: the decoder feeds the accumulated buffer to the inflate context exactly
when the buffer ends in `00 00 FF FF`: every inflated buffer ends with the
sentinel; as soon as an extend makes the buffer end with the sentinel the loop
stops reading and inflates; a logical message split over three binary frames of
which only the third completes the sentinel is inflated exactly once, as one
whole buffer; and one decoded DISPATCH message produces exactly one dispatch
sink call. -/
theorem C5_sentinel_framing :
    (∀ (buf : List Nat) (frames : List (List Nat)) (out : List Nat)
        (rest : List (List Nat)), accumulate buf frames = some (out, rest) →
        endsWithSentinel out = true) ∧
    (∀ (buf f : List Nat) (rest : List (List Nat)),
        endsWithSentinel (buf ++ f) = true →
        accumulate buf (f :: rest) = some (buf ++ f, rest)) ∧
    (∀ f1 f2 f3 : List Nat, endsWithSentinel f1 = false →
        endsWithSentinel (f1 ++ f2) = false →
        endsWithSentinel (f1 ++ f2 ++ f3) = true →
        receiveJsonBin [] [f1, f2, f3] = some ⟨[f1 ++ f2 ++ f3], [], []⟩) ∧
    (∀ (sink : Option String → Json → Except String Unit) (st : SessionState)
        (m : Message), m.op = DISPATCH_OP → sink m.t m.d = .ok () →
        (processOne sink st m).effects = [.dispatchCall m.t m.d]) := by
  refine ⟨fun buf frames out rest h =>
      accumulate_ends_with_sentinel frames buf out rest h,
    fun buf f rest h => ?_, fun f1 f2 f3 h1 h2 h3 => ?_,
    fun sink st m hop hs => ?_⟩
  · rw [accumulate]
    simp [h]
  · rw [receiveJsonBin, accumulate, accumulate, accumulate]
    simp only [List.nil_append, List.append_assoc, h1, h2, Bool.false_eq_true,
      if_false]
    rw [List.append_assoc] at h3
    rw [if_pos h3]
  · simp [processOne, hop, hs]

theorem C5_sentinel_framing_witness :
    receiveJsonBin [] [[1], [2], [0, 0, 255, 255]] =
      some ⟨[[1, 2, 0, 0, 255, 255]], [], []⟩ ∧
    (processOne okSink initState.session readyMsg).effects =
      [.dispatchCall (some "READY") readyPayload] := by
  constructor
  · have h := C5_sentinel_framing.2.2.1 [1] [2] [0, 0, 255, 255] rfl rfl rfl
    simpa using h
  · exact C5_sentinel_framing.2.2.2 okSink initState.session readyMsg rfl rfl

/-- C6: with the default configuration — a `BoundedSemaphore` of capacity 119
whose permits are acquired before each write and released only 60 seconds after
the write — any rolling 60-second window contains at most 119 writes: the
semaphore bound at the instant of a window's last write dominates the window
count. -/
theorem C6_rolling_window_budget (writes : List ℚ)
    (hsem : ∀ now : ℚ, heldCount writes now ≤ RATELIMIT_TOLERANCE) (T : ℚ) :
    windowCount writes T ≤ RATELIMIT_TOLERANCE := by
  by_cases hne : writes.filter (inWindow T) = []
  · simp [windowCount, hne]
  · obtain ⟨m, hm, hmax⟩ := exists_max_mem _ hne
    have hmW : inWindow T m = true := (List.mem_filter.mp hm).2
    refine le_trans ?_ (hsem m)
    unfold windowCount heldCount
    apply filter_length_mono
    intro t ht hpt
    have htm : t ≤ m := hmax t (List.mem_filter.mpr ⟨ht, hpt⟩)
    have h1 : T ≤ t ∧ t < T + RATELIMIT_COOLDOWN := by simpa [inWindow] using hpt
    have h2 : T ≤ m ∧ m < T + RATELIMIT_COOLDOWN := by simpa [inWindow] using hmW
    have hlt : m < t + RATELIMIT_COOLDOWN := lt_of_lt_of_le h2.2 (by linarith [h1.1])
    simp [permitHeldAt]
    exact ⟨htm, hlt⟩

theorem C6_rolling_window_budget_witness :
    windowCount [(0 : ℚ), 1] 0 ≤ RATELIMIT_TOLERANCE :=
  C6_rolling_window_budget [0, 1]
    (fun now => le_trans (List.length_filter_le _ _)
      (by norm_num [RATELIMIT_TOLERANCE])) 0

/-- C8 amended: every frame carrying a sequence field sets the stored sequence
to that field's value — even when it is smaller than the current one — and a
frame without one leaves it unchanged; the run loop makes the stored sequence
`None` only when handling a reidentify termination (otherwise it was `None`
already). -/
theorem C8_seq_overwritten_cleared_only_on_reidentify :
    (∀ (sink : Option String → Json → Except String Unit) (st : SessionState)
        (m : Message), (processOne sink st m).state.seq =
          (match m.s with | some n => some n | none => st.seq)) ∧
    (∀ (st : ConnState) (t : Termination) (st1 : ConnState),
        runStep st t = .ok st1 → st1.session.seq = none →
        st.session.seq = none ∨ ∃ c r, t = .reconnection c r) := by
  constructor
  · intro sink st m
    have hstate : (processOne sink st m).state = updateSeq st m.s := by
      unfold processOne
      cases sink m.t m.d <;> split_ifs <;> rfl
    rw [hstate]
    cases m.s <;> simp [updateSeq]
  · intro st t st1 hok hnone
    cases t with
    | resumable c r =>
      simp only [runStep, Except.ok.injEq] at hok
      left
      rw [hok]
      exact hnone
    | reconnection c r => exact Or.inr ⟨c, r, rfl⟩
    | transportClosed c => simp [runStep] at hok
    | sinkRaised e => simp [runStep] at hok

theorem C8_seq_overwritten_cleared_only_on_reidentify_witness :
    (processOne okSink initState.session (seqMsg 3)).state.seq = some 3 ∧
    (initState.session.seq = none ∨ ∃ c r,
      (Termination.resumable 1008 "z") = .reconnection c r) := by
  constructor
  · exact C8_seq_overwritten_cleared_only_on_reidentify.1 okSink
      initState.session (seqMsg 3)
  · exact C8_seq_overwritten_cleared_only_on_reidentify.2 initState
      (.resumable 1008 "z") initState rfl rfl

/-- C9 amended: the inflate context is created once, at construction
(generation 0), and never replaced afterwards: the reconnect handling of `run`
leaves both decoder fields untouched between connection iterations, so the
accumulation buffer carries its contents over a reconnect; a successful receive
empties the buffer without replacing the context. -/
theorem C9_inflator_created_once :
    initState.inflatorGen = 0 ∧
    (∀ (st : ConnState) (t : Termination) (st1 : ConnState),
        runStep st t = .ok st1 →
        st1.inflatorGen = st.inflatorGen ∧ st1.in_buffer = st.in_buffer) ∧
    (∀ (buf : List Nat) (frames : List (List Nat)) (r : RecvBinResult),
        receiveJsonBin buf frames = some r → r.buffer_after = []) := by
  refine ⟨rfl, ?_, ?_⟩
  · intro st t st1 hok
    cases t with
    | resumable c r =>
      simp only [runStep, Except.ok.injEq] at hok
      rw [← hok]
      exact ⟨rfl, rfl⟩
    | reconnection c r =>
      simp only [runStep, Except.ok.injEq] at hok
      rw [← hok]
      exact ⟨rfl, rfl⟩
    | transportClosed c => simp [runStep] at hok
    | sinkRaised e => simp [runStep] at hok
  · intro buf frames r h
    rw [receiveJsonBin] at h
    cases hacc : accumulate buf frames with
    | none => rw [hacc] at h; simp at h
    | some pr =>
      rw [hacc] at h
      simp only [Option.some.injEq] at h
      rw [← h]

theorem C9_inflator_created_once_witness :
    (⟨[[0, 0, 255, 255]], [], []⟩ : RecvBinResult).buffer_after = [] :=
  C9_inflator_created_once.2.2 [] [[0, 0, 255, 255]]
    ⟨[[0, 0, 255, 255]], [], []⟩ rfl

end Gateway
